import Mathlib

/-!
Verification development for the Qt-Advanced-Stylesheets repository.

The repository ships a single public C++ header, `src/StyleManager.h`,
declaring the class `acss::CStyleManager`, plus a qmake build script
`examples/exporter/exporter.pro`.  The header contains declarations and
documentation only; no member function has a body in the repository.

This file embeds two views of the repository:

1. A structural view transcribed from the header: the list of declared
   public members of `CStyleManager` (names, kinds, declaration-only flag),
   the other public declarations of the header, and the repository files
   with their physical line counts.

2. A behavioural state-machine model of the manager.  Since the
   implementation is absent from the repository, the behaviour of each
   operation is modelled from the spec, i.e. from the documentation
   comments of `StyleManager.h` (each such definition carries a
   `Modelled from the spec:` doc comment naming the missing code).
   A stylesheet template is modelled as a token list (literal text
   interleaved with theme-variable references); theme variables are an
   association list; I/O failure modes (unwritable output directory,
   failing SVG resource generation) are explicit boolean fields of the
   state so that the error paths documented in the header are expressible.
-/

namespace acss

/-- Error states of `CStyleManager`, transcribed from `enum eError` in
`StyleManager.h`. -/
inductive eError where
  | NoError
  | CssTemplateError
  | CssExportError
  | ThemeXmlError
  | StyleJsonError
  | ResourceGeneratorError
  deriving DecidableEq

/-- Directory locations, transcribed from `enum eLocation` in `StyleManager.h`. -/
inductive eLocation where
  | ThemesLocation
  | ResourceTemplatesLocation
  | FontsLocation
  deriving DecidableEq

/-- Observable side effects of the manager operations, used to record the
order in which `updateStylesheet` performs its documented steps. -/
inductive Event where
  | paletteUpdated
  | resourcesGenerated
  | stylesheetGenerated
  deriving DecidableEq

/-- One token of a stylesheet template: a run of literal CSS text, or a
reference to a theme variable to be substituted. -/
inductive TemplateToken where
  | lit (s : String)
  | var (id : String)
  deriving DecidableEq

/-- The abstract state of a `CStyleManager` object.  Fields mirror the data
the header documents the object to hold: the styles directory, the output
directory, the available styles, the current style and theme, the theme
files of the current style (XML file name paired with the variable values
the file defines), the registered theme variables, the stylesheet template
of the current style (if any), the processed stylesheet, the application
palette, the generated output files, and the sticky error state.
`writableOutput` and `resourcesOk` model the environment: whether the
output directory can be written and whether SVG resource generation
succeeds. `trace` records the observable side effects in order. -/
structure StyleManagerM where
  stylesDirPath : String
  outputDirPath : String
  availableStyles : List String
  currentStyle : String
  currentTheme : String
  themes : List (String × List (String × String))
  themeVariables : List (String × String)
  hasStyleTemplate : Bool
  styleTemplate : List TemplateToken
  styleSheet : String
  appPalette : List (String × String)
  outputFiles : List (String × String)
  writableOutput : Bool
  resourcesOk : Bool
  error : eError
  trace : List Event

/-- Modelled from the spec: `CStyleManager::setStylesDirPath` (declaration
only in the repository) sets the directory path that contains all styles. -/
def setStylesDirPath (st : StyleManagerM) (DirPath : String) : StyleManagerM :=
  { st with stylesDirPath := DirPath }

/-- Modelled from the spec: `CStyleManager::setOutputDirPath` (declaration
only in the repository) sets the output directory path where the generated
theme will be stored. -/
def setOutputDirPath (st : StyleManagerM) (Path : String) : StyleManagerM :=
  { st with outputDirPath := Path }

/-- Modelled from the spec: `CStyleManager::themeVariableValue` (declaration
only in the repository) returns the value for the given theme variable, and
an empty string if the given theme variable does not exist. -/
def themeVariableValue (st : StyleManagerM) (VariableId : String) : String :=
  match st.themeVariables.lookup VariableId with
  | some v => v
  | none => ""

/-- Modelled from the spec: `CStyleManager::setThemeVariableValue`
(declaration only in the repository) adds or overwrites a theme variable. -/
def setThemeVariableValue (st : StyleManagerM) (VariableId Value : String) :
    StyleManagerM :=
  { st with themeVariables :=
      (VariableId, Value) :: st.themeVariables.filter (fun p => p.1 != VariableId) }

/-- The template-processing loop: scan the token list, appending literal
text unchanged and replacing each theme-variable reference by the value of
the registered variable, accumulating the output string. -/
def substTemplate (st : StyleManagerM) : List TemplateToken → String → String
  | [], acc => acc
  | TemplateToken.lit s :: ts, acc => substTemplate st ts (acc ++ s)
  | TemplateToken.var id :: ts, acc =>
      substTemplate st ts (acc ++ themeVariableValue st id)

/-- Modelled from the spec: `CStyleManager::processStylesheetTemplate`
(declaration only in the repository) replaces the style variables in the
given template with the value of the registered style variables and returns
the final stylesheet, or an empty string in case of an error; if the
OutputFile parameter is given, the generated stylesheet file is stored
under that name (which fails with `CssExportError` when the output location
is not writable). -/
def processStylesheetTemplate (st : StyleManagerM) (Template : List TemplateToken)
    (OutputFile : Option String) : String × StyleManagerM :=
  let css := substTemplate st Template ""
  match OutputFile with
  | none => (css, st)
  | some f =>
      if st.writableOutput then
        (css, { st with outputFiles := st.outputFiles ++ [(f, css)] })
      else
        ("", { st with error := eError.CssExportError })

/-- Modelled from the spec: `CStyleManager::generateThemePalette`
(declaration only in the repository) creates a palette with the theme
colors of the currently selected theme. -/
def generateThemePalette (st : StyleManagerM) : List (String × String) :=
  st.themeVariables

/-- Modelled from the spec: `CStyleManager::updateApplicationPaletteColors`
(declaration only in the repository) creates a palette with theme colors
via `generateThemePalette` and assigns the palette to the application
object. -/
def updateApplicationPaletteColors (st : StyleManagerM) : StyleManagerM :=
  { st with appPalette := generateThemePalette st,
            trace := st.trace ++ [Event.paletteUpdated] }

/-- Modelled from the spec: `CStyleManager::generateResources` (declaration
only in the repository) generates the required SVG icon resources for the
current theme, returning false (with `ResourceGeneratorError`) when
generation fails. -/
def generateResources (st : StyleManagerM) : Bool × StyleManagerM :=
  if st.resourcesOk then
    (true, { st with trace := st.trace ++ [Event.resourcesGenerated] })
  else
    (false, { st with error := eError.ResourceGeneratorError })

/-- Modelled from the spec: `CStyleManager::updateStylesheet` (declaration
only in the repository) updates the application palette with the theme
colors (`updateApplicationPaletteColors`), generates the theme SVG
resources (`generateResources`) and then generates the stylesheet if the
style has a template file. -/
def updateStylesheet (st : StyleManagerM) : Bool × StyleManagerM :=
  let st1 := updateApplicationPaletteColors st
  let r := generateResources st1
  if r.1 then
    let st2 := r.2
    if st2.hasStyleTemplate then
      let p := processStylesheetTemplate st2 st2.styleTemplate
                 (some (st2.currentStyle ++ ".css"))
      if st2.writableOutput then
        (true, { p.2 with styleSheet := p.1,
                          trace := p.2.trace ++ [Event.stylesheetGenerated] })
      else
        (false, p.2)
    else
      (true, st2)
  else
    (false, r.2)

/-- Modelled from the spec: `CStyleManager::processStyleTemplate`
(declaration only in the repository) calls `generateResources` and
`updateApplicationPaletteColors` without creating any stylesheet. -/
def processStyleTemplate (st : StyleManagerM) : Bool × StyleManagerM :=
  let r := generateResources st
  (r.1, updateApplicationPaletteColors r.2)

/-- Modelled from the spec: `CStyleManager::setCurrentTheme` (declaration
only in the repository) sets the theme to use, given the theme name without
the `.xml` file extension; it returns true on success and false on error,
and does not trigger a stylesheet update. -/
def setCurrentTheme (st : StyleManagerM) (Theme : String) : Bool × StyleManagerM :=
  match st.themes.lookup (Theme ++ ".xml") with
  | some vars => (true, { st with currentTheme := Theme, themeVariables := vars })
  | none => (false, { st with error := eError.ThemeXmlError })

/-- Modelled from the spec: `CStyleManager::setCurrentStyle` (declaration
only in the repository) sets the current style, returning true on success. -/
def setCurrentStyle (st : StyleManagerM) (Style : String) : Bool × StyleManagerM :=
  if st.availableStyles.contains Style then
    (true, { st with currentStyle := Style })
  else
    (false, { st with error := eError.StyleJsonError })

/-- Reference rendering of a stylesheet template, written directly from
the wording of the spec: each literal is kept, and each theme variable
occurring in the template is replaced by the value of the registered
variable. -/
def renderSpec (st : StyleManagerM) : List TemplateToken → String
  | [] => ""
  | TemplateToken.lit s :: ts => s ++ renderSpec st ts
  | TemplateToken.var id :: ts => themeVariableValue st id ++ renderSpec st ts

/-- The calls a host application can make on the manager, for reasoning
about sequences of operations. -/
inductive Call where
  | setStylesDirPath (p : String)
  | setOutputDirPath (p : String)
  | setThemeVariableValue (id v : String)
  | setCurrentTheme (t : String)
  | setCurrentStyle (s : String)
  | updateStylesheet
  | processStyleTemplate
  | generateResources
  | updateApplicationPaletteColors

/-- State transition performed by one call (the boolean results are not
part of the state). -/
def step : Call → StyleManagerM → StyleManagerM
  | Call.setStylesDirPath p, st => setStylesDirPath st p
  | Call.setOutputDirPath p, st => setOutputDirPath st p
  | Call.setThemeVariableValue id v, st => setThemeVariableValue st id v
  | Call.setCurrentTheme t, st => (setCurrentTheme st t).2
  | Call.setCurrentStyle s, st => (setCurrentStyle st s).2
  | Call.updateStylesheet, st => (updateStylesheet st).2
  | Call.processStyleTemplate, st => (processStyleTemplate st).2
  | Call.generateResources, st => (generateResources st).2
  | Call.updateApplicationPaletteColors, st => updateApplicationPaletteColors st

/-- Execution of a sequence of calls on the manager: one sequential thread
of control, each call running to completion before the next starts. -/
def run (cs : List Call) (st : StyleManagerM) : StyleManagerM :=
  cs.foldl (fun s c => step c s) st

/-- Kind of a class member declared in `StyleManager.h`. -/
inductive MemberKind where
  | ctor
  | dtor
  | getter
  | setter
  | method
  | slot
  | sig
  deriving DecidableEq, BEq

/-- One public member of `CStyleManager` as declared in `StyleManager.h`:
its name, its kind, whether the repository contains only its declaration
(no body), and whether the declaration involves spawning or synchronising
concurrent activities. -/
structure Member where
  name : String
  kind : MemberKind
  declarationOnly : Bool
  spawnsConcurrency : Bool
  deriving DecidableEq, BEq

/-- The public members of `CStyleManager`, transcribed in declaration order
from `src/StyleManager.h` (lines 56 to 282). -/
def cStyleManagerMembers : List Member :=
  [⟨"CStyleManager", MemberKind.ctor, true, false⟩,
   ⟨"~CStyleManager", MemberKind.dtor, true, false⟩,
   ⟨"setStylesDirPath", MemberKind.setter, true, false⟩,
   ⟨"stylesDirPath", MemberKind.getter, true, false⟩,
   ⟨"currentStyle", MemberKind.getter, true, false⟩,
   ⟨"currentStylePath", MemberKind.getter, true, false⟩,
   ⟨"styles", MemberKind.getter, true, false⟩,
   ⟨"themes", MemberKind.getter, true, false⟩,
   ⟨"themeColorVariables", MemberKind.getter, true, false⟩,
   ⟨"path", MemberKind.getter, true, false⟩,
   ⟨"outputDirPath", MemberKind.getter, true, false⟩,
   ⟨"setOutputDirPath", MemberKind.setter, true, false⟩,
   ⟨"currentStyleOutputPath", MemberKind.getter, true, false⟩,
   ⟨"themeVariableValue", MemberKind.getter, true, false⟩,
   ⟨"setThemeVariableValue", MemberKind.setter, true, false⟩,
   ⟨"themeColor", MemberKind.getter, true, false⟩,
   ⟨"currentTheme", MemberKind.getter, true, false⟩,
   ⟨"styleSheet", MemberKind.getter, true, false⟩,
   ⟨"processStylesheetTemplate", MemberKind.method, true, false⟩,
   ⟨"styleIcon", MemberKind.getter, true, false⟩,
   ⟨"error", MemberKind.getter, true, false⟩,
   ⟨"errorString", MemberKind.getter, true, false⟩,
   ⟨"generateThemePalette", MemberKind.method, true, false⟩,
   ⟨"styleParameters", MemberKind.getter, true, false⟩,
   ⟨"setCurrentTheme", MemberKind.slot, true, false⟩,
   ⟨"setCurrentStyle", MemberKind.slot, true, false⟩,
   ⟨"updateStylesheet", MemberKind.slot, true, false⟩,
   ⟨"processStyleTemplate", MemberKind.slot, true, false⟩,
   ⟨"generateResources", MemberKind.slot, true, false⟩,
   ⟨"updateApplicationPaletteColors", MemberKind.slot, true, false⟩,
   ⟨"currentStyleChanged", MemberKind.sig, true, false⟩,
   ⟨"currentThemeChanged", MemberKind.sig, true, false⟩,
   ⟨"stylesheetChanged", MemberKind.sig, true, false⟩]

/-- A public class declared by the repository. -/
structure PublicClass where
  name : String
  members : List Member

/-- The public classes the repository declares: `CStyleManager` only. -/
def publicClasses : List PublicClass :=
  [⟨"CStyleManager", cStyleManagerMembers⟩]

/-- Any other public declaration of `StyleManager.h`, with whether it
provides behaviour (member functions with semantics of their own). -/
structure PublicDecl where
  name : String
  providesBehaviour : Bool
  deriving DecidableEq, BEq

/-- The remaining public declarations of `StyleManager.h`: the pimpl
struct (forward declaration only), a pair type alias and two enums, none
of which provides behaviour. -/
def otherPublicDecls : List PublicDecl :=
  [⟨"StyleManagerPrivate", false⟩,
   ⟨"QStringPair", false⟩,
   ⟨"CStyleManager::eError", false⟩,
   ⟨"CStyleManager::eLocation", false⟩]

/-- A file of the repository: its path, whether it is C++ source (header
or translation unit), whether it is a header, and its physical line count. -/
structure RepoFile where
  path : String
  isCppSource : Bool
  isHeader : Bool
  lineCount : Nat
  deriving DecidableEq, BEq

/-- The files of the repository with their physical line counts:
`src/StyleManager.h` has 287 lines and `examples/exporter/exporter.pro`
has 27 lines. -/
def repoFiles : List RepoFile :=
  [⟨"src/StyleManager.h", true, true, 287⟩,
   ⟨"examples/exporter/exporter.pro", false, false, 27⟩]

/-- Total number of lines in the repository. -/
def totalRepoLines : Nat :=
  (repoFiles.map RepoFile.lineCount).sum

/-- A concrete manager state used to instantiate the theorems: the style
`qt_material` is current, the theme file `dark_cyan.xml` exists, one theme
variable `primaryColor` is registered with value `#ac2300`, the style has
a template, the output directory is writable and resource generation
succeeds. -/
def stW : StyleManagerM :=
  { stylesDirPath := "C:/styles"
    outputDirPath := "C:/temp/styles"
    availableStyles := ["qt_material"]
    currentStyle := "qt_material"
    currentTheme := "dark_blue"
    themes := [("dark_cyan.xml", [("primaryColor", "#123456")])]
    themeVariables := [("primaryColor", "#ac2300")]
    hasStyleTemplate := true
    styleTemplate := [TemplateToken.lit "color: ", TemplateToken.var "primaryColor"]
    styleSheet := ""
    appPalette := []
    outputFiles := []
    writableOutput := true
    resourcesOk := true
    error := eError.NoError
    trace := [] }

/-- The same concrete state with an unwritable output location. -/
def stRO : StyleManagerM :=
  { stW with writableOutput := false }

/-- The accumulator-passing template loop produces the accumulator followed
by the reference rendering of the remaining tokens. -/
theorem substTemplate_renderSpec (st : StyleManagerM) :
    ∀ (ts : List TemplateToken) (acc : String),
      substTemplate st ts acc = acc ++ renderSpec st ts := by
  intro ts
  induction ts with
  | nil =>
    intro acc
    simp [substTemplate, renderSpec, String.append_empty]
  | cons t ts ih =>
    intro acc
    cases t with
    | lit s =>
      simp [substTemplate, renderSpec, ih, String.append_assoc]
    | var id =>
      simp [substTemplate, renderSpec, ih, String.append_assoc]

/-- C1: for every stylesheet template and every registered set of theme
variables, `processStylesheetTemplate` returns the rendering in which each
literal is kept and each theme variable occurring in the template is
substituted; a variable registered with value `v` is substituted by exactly
`v`. -/
theorem processStylesheetTemplate_substitutes
    (st : StyleManagerM) (tpl : List TemplateToken) :
    (processStylesheetTemplate st tpl none).1 = renderSpec st tpl ∧
    ∀ id v, st.themeVariables.lookup id = some v →
      renderSpec st [TemplateToken.var id] = v := by
  constructor
  · simp [processStylesheetTemplate, substTemplate_renderSpec]
  · intro id v h
    simp [renderSpec, themeVariableValue, h, String.append_empty]

/-- Witness for C1 at the concrete state `stW` and a concrete template. -/
theorem processStylesheetTemplate_substitutes_witness :
    (processStylesheetTemplate stW
        [TemplateToken.lit "color: ", TemplateToken.var "primaryColor"] none).1
      = renderSpec stW
          [TemplateToken.lit "color: ", TemplateToken.var "primaryColor"] ∧
    renderSpec stW [TemplateToken.var "primaryColor"] = "#ac2300" :=
  ⟨(processStylesheetTemplate_substitutes stW
      [TemplateToken.lit "color: ", TemplateToken.var "primaryColor"]).1,
   (processStylesheetTemplate_substitutes stW
      [TemplateToken.lit "color: ", TemplateToken.var "primaryColor"]).2
     "primaryColor" "#ac2300" rfl⟩

/-- C8: `themeVariableValue` returns the empty string for a variable
identifier that is not registered, and the registered value for a
registered theme variable. -/
theorem themeVariableValue_total (st : StyleManagerM) (VariableId : String) :
    (st.themeVariables.lookup VariableId = none →
      themeVariableValue st VariableId = "") ∧
    (∀ v, st.themeVariables.lookup VariableId = some v →
      themeVariableValue st VariableId = v) := by
  refine ⟨fun h => ?_, fun v h => ?_⟩ <;> simp [themeVariableValue, h]

/-- Witness for C8 at the concrete state `stW`: the registered variable
`primaryColor` and the unregistered identifier `missing`. -/
theorem themeVariableValue_total_witness :
    themeVariableValue stW "missing" = "" ∧
    themeVariableValue stW "primaryColor" = "#ac2300" :=
  ⟨(themeVariableValue_total stW "missing").1 rfl,
   (themeVariableValue_total stW "primaryColor").2 "#ac2300" rfl⟩

/-- C9: `setCurrentTheme` does not trigger a stylesheet update: the
processed stylesheet read by `styleSheet()` is unchanged by the call, for
every manager state and every theme name. -/
theorem setCurrentTheme_preserves_styleSheet
    (st : StyleManagerM) (Theme : String) :
    (setCurrentTheme st Theme).2.styleSheet = st.styleSheet := by
  unfold setCurrentTheme
  cases h : st.themes.lookup (Theme ++ ".xml") <;> simp

/-- C6: a theme is identified by a named XML file defining variable values;
`setCurrentTheme` takes the theme name without the `.xml` extension,
succeeds (returns true) exactly when the file named `Theme ++ ".xml"`
exists for the current style, in which case the current theme becomes
`Theme` and the variables defined by that file are loaded, and returns
false on error. -/
theorem setCurrentTheme_xml_name (st : StyleManagerM) (Theme : String) :
    ((setCurrentTheme st Theme).1 = true ↔
      (st.themes.lookup (Theme ++ ".xml")).isSome = true) ∧
    (∀ vars, st.themes.lookup (Theme ++ ".xml") = some vars →
      (setCurrentTheme st Theme).2.currentTheme = Theme ∧
      (setCurrentTheme st Theme).2.themeVariables = vars) ∧
    (st.themes.lookup (Theme ++ ".xml") = none →
      (setCurrentTheme st Theme).1 = false ∧
      (setCurrentTheme st Theme).2.error = eError.ThemeXmlError) := by
  refine ⟨?_, fun vars hv => ?_, fun hn => ?_⟩
  · cases h : st.themes.lookup (Theme ++ ".xml") <;> simp [setCurrentTheme, h]
  · simp [setCurrentTheme, hv]
  · simp [setCurrentTheme, hn]

/-- Witness for C6 at the concrete state `stW`, whose current style has
the theme file `dark_cyan.xml`: the call with the bare name `dark_cyan`
succeeds and selects that theme. -/
theorem setCurrentTheme_xml_name_witness :
    (setCurrentTheme stW "dark_cyan").1 = true ∧
    (setCurrentTheme stW "dark_cyan").2.currentTheme = "dark_cyan" ∧
    (setCurrentTheme stW "dark_cyan").2.themeVariables
      = [("primaryColor", "#123456")] :=
  ⟨((setCurrentTheme_xml_name stW "dark_cyan").1).mpr rfl,
   ((setCurrentTheme_xml_name stW "dark_cyan").2.1
      [("primaryColor", "#123456")] rfl).1,
   ((setCurrentTheme_xml_name stW "dark_cyan").2.1
      [("primaryColor", "#123456")] rfl).2⟩

/-- C10 counterexample: at the concrete state `stW` and the empty template,
`processStylesheetTemplate` returns the empty string while no error has
occurred (`error()` is `NoError`), so an empty result does not imply an
error. -/
theorem processStylesheetTemplate_empty_no_error :
    ¬ (((processStylesheetTemplate stW [] none).1 = "") →
        (processStylesheetTemplate stW [] none).2.error ≠ eError.NoError) := by
  decide

/-- C10 amended: whenever an error occurs while processing the template
(the output location cannot be written for a requested output file), the
function returns the empty string and the error state becomes
`CssExportError`, which is not `NoError`; a call without an output file
never fails and returns the substituted template, which may itself be
empty. -/
theorem processStylesheetTemplate_error_empty
    (st : StyleManagerM) (tpl : List TemplateToken) (f : String)
    (hw : st.writableOutput = false) :
    (processStylesheetTemplate st tpl (some f)).1 = "" ∧
    (processStylesheetTemplate st tpl (some f)).2.error = eError.CssExportError ∧
    eError.CssExportError ≠ eError.NoError ∧
    (processStylesheetTemplate st tpl none).1 = substTemplate st tpl "" ∧
    (processStylesheetTemplate st tpl none).2.error = st.error := by
  refine ⟨?_, ?_, by decide, ?_, ?_⟩ <;> simp [processStylesheetTemplate, hw]

/-- Witness for the amended C10 at the concrete state `stRO`, whose output
location is not writable. -/
theorem processStylesheetTemplate_error_empty_witness :
    (processStylesheetTemplate stRO [TemplateToken.lit "x"] (some "out.css")).1
      = "" ∧
    (processStylesheetTemplate stRO [TemplateToken.lit "x"] (some "out.css")).2.error
      = eError.CssExportError :=
  ⟨(processStylesheetTemplate_error_empty stRO [TemplateToken.lit "x"]
      "out.css" rfl).1,
   (processStylesheetTemplate_error_empty stRO [TemplateToken.lit "x"]
      "out.css" rfl).2.1⟩

/-- C2: every successful call to `updateStylesheet` performs, in order, the
palette update (`updateApplicationPaletteColors`), the regeneration of the
SVG icon resources (`generateResources`), and then, when the style has a
template file, the generation of the stylesheet from that template. -/
theorem updateStylesheet_order (st : StyleManagerM)
    (hok : (updateStylesheet st).1 = true) :
    (updateStylesheet st).2.trace =
      st.trace ++
        (if st.hasStyleTemplate then
          [Event.paletteUpdated, Event.resourcesGenerated,
           Event.stylesheetGenerated]
        else
          [Event.paletteUpdated, Event.resourcesGenerated]) := by
  cases hres : st.resourcesOk with
  | false =>
    exfalso
    simp [updateStylesheet, updateApplicationPaletteColors,
          generateThemePalette, generateResources, hres] at hok
  | true =>
    cases htpl : st.hasStyleTemplate with
    | false =>
      simp [updateStylesheet, updateApplicationPaletteColors,
            generateThemePalette, generateResources, htpl, hres]
    | true =>
      cases hw : st.writableOutput with
      | false =>
        exfalso
        simp [updateStylesheet, updateApplicationPaletteColors,
              generateThemePalette, generateResources,
              processStylesheetTemplate, htpl, hres, hw] at hok
      | true =>
        simp [updateStylesheet, updateApplicationPaletteColors,
              generateThemePalette, generateResources,
              processStylesheetTemplate, htpl, hres, hw]

/-- Witness for C2 at the concrete state `stW`, where the call succeeds
and the style has a template file. -/
theorem updateStylesheet_order_witness :
    (updateStylesheet stW).1 = true ∧
    (updateStylesheet stW).2.trace =
      stW.trace ++
        (if stW.hasStyleTemplate then
          [Event.paletteUpdated, Event.resourcesGenerated,
           Event.stylesheetGenerated]
        else
          [Event.paletteUpdated, Event.resourcesGenerated]) :=
  ⟨rfl, updateStylesheet_order stW rfl⟩

/-- C3: the visible surface of the repository is the single public class
`CStyleManager`; it declares the getters and setters for style selection
(`currentStyle`/`setCurrentStyle`), theme selection
(`currentTheme`/`setCurrentTheme`) and theme-variable overrides
(`themeVariableValue`/`setThemeVariableValue`), its signals are exactly
`currentStyleChanged`, `currentThemeChanged` and `stylesheetChanged`, and
no other public declaration of the header provides behaviour. -/
theorem single_manager_surface :
    publicClasses.map PublicClass.name = ["CStyleManager"] ∧
    (["currentStyle", "setCurrentStyle", "currentTheme", "setCurrentTheme",
      "themeVariableValue", "setThemeVariableValue"].all
        (fun n => (cStyleManagerMembers.map Member.name).contains n)) = true ∧
    ((cStyleManagerMembers.filter (fun m => m.kind == MemberKind.sig)).map
        Member.name
      = ["currentStyleChanged", "currentThemeChanged", "stylesheetChanged"]) ∧
    (otherPublicDecls.all (fun t => !t.providesBehaviour)) = true := by
  refine ⟨rfl, ?_, rfl, rfl⟩
  decide

/-- C4: every public member of `CStyleManager` is a declaration only (the
repository contains no function body), and the sole C++ source file of the
repository is the public header `src/StyleManager.h`. -/
theorem declarations_only :
    (cStyleManagerMembers.all (fun m => m.declarationOnly)) = true ∧
    (repoFiles.filter (fun f => f.isCppSource)).map RepoFile.path
      = ["src/StyleManager.h"] ∧
    (repoFiles.all (fun f => !f.isCppSource || f.isHeader)) = true := by
  refine ⟨?_, rfl, rfl⟩
  decide

/-- C5 counterexample: the repository does not total 215 lines. -/
theorem repo_not_215_lines : totalRepoLines ≠ 215 := by
  decide

/-- C5 amended: the repository totals 314 lines, comprising the 287-line
public header `src/StyleManager.h` and the 27-line build file
`examples/exporter/exporter.pro` of the example console exporter. -/
theorem repo_line_count :
    totalRepoLines = 314 ∧
    repoFiles.map RepoFile.lineCount = [287, 27] ∧
    repoFiles.map RepoFile.path
      = ["src/StyleManager.h", "examples/exporter/exporter.pro"] := by
  refine ⟨rfl, rfl, rfl⟩

/-- C7: no declared member of `CStyleManager` spawns or synchronises
concurrent activities, and running a sequence of calls on the manager is
sequential composition: executing `cs ++ ds` from any state is executing
`cs` to completion and then `ds` from the resulting state. -/
theorem no_concurrency (cs ds : List Call) (st : StyleManagerM) :
    (cStyleManagerMembers.all (fun m => !m.spawnsConcurrency)) = true ∧
    run (cs ++ ds) st = run ds (run cs st) := by
  refine ⟨by decide, ?_⟩
  simp [run, List.foldl_append]

end acss
